import Mathlib

/-!
Shallow embedding of the webhooks-journal CLI client (TypeScript sources) in
Lean 4, together with theorems settling the specification claims about it.

The embedding covers:
* the OAuth token cache (`AuthManager` from `src/utils/auth.ts`):
  `isTokenExpired`, `getAccessToken`, `fetchAccessToken`;
* the HTTP gateway's 401 response interceptor and error mapping
  (`ApiClient` from `api-client.ts`): `createApiError`, `sendRequest`;
* the journal client (`JournalApi` from `journal-api.ts`):
  `getNextJournalEntry` and the `streamJournalEntries` polling loop,
  modelled as a step function `pollStep` over an explicit `StreamState`
  with the environment (clock readings and HTTP responses) supplied as
  inputs and the observable actions (network calls, callback invocations,
  sleeps) recorded as an `Event` list;
* the subscriptions client (`SubscriptionsApi` from `subscriptions-api.ts`):
  `deletePortalSubscriptions` with its individual-deletion fallback.

Conventions: epoch-millisecond clock values and durations are `Int`
(JavaScript numbers are exact on these magnitudes); JS `null`/`undefined`
fields become `Option`; thrown JS errors become `Except` results.  An
`ApiClientError` is represented by its four fields; a plain JS `Error`
is represented as an `ApiClientError` with no `statusCode`, which is
faithful for every branch the code takes (all status dispatch is on
`statusCode === 204/401/500`, which a plain error never satisfies).
-/

namespace WebhooksJournal

/-! ### Token cache (`src/utils/auth.ts`) -/

/-- `AuthToken` from `types/config.ts`: `obtained_at` is optional. -/
structure AuthToken where
  access_token : String
  token_type : String
  expires_in : Int
  obtained_at : Option Int
  deriving Repr, DecidableEq

/-- `isTokenExpired` (auth.ts lines 124-134): the guard
`if (!token.obtained_at)` holds when the field is `undefined` OR its
value is falsy — for an integer timestamp, when it equals 0 — and then
the token is unconditionally expired; otherwise it is expired exactly
when `now >= obtained_at + expires_in*1000 - 5*60*1000`. -/
def isTokenExpired (now : Int) (token : AuthToken) : Bool :=
  match token.obtained_at with
  | none => true
  | some obtainedAt =>
    if obtainedAt = 0 then true
    else
      let expirationTime := obtainedAt + token.expires_in * 1000
      let bufferTime : Int := 5 * 60 * 1000
      decide (now ≥ expirationTime - bufferTime)

/-- The body of a successful OAuth token-endpoint response. -/
structure TokenResponse where
  access_token : String
  token_type : String
  expires_in : Int
  deriving Repr, DecidableEq

/-- `fetchAccessToken` (auth.ts lines 56-95), successful path: the response
body plus `obtained_at := Date.now()`. -/
def fetchAccessToken (now : Int) (resp : TokenResponse) : AuthToken :=
  { access_token := resp.access_token
    token_type := resp.token_type
    expires_in := resp.expires_in
    obtained_at := some now }

/-- The `AuthManager`'s mutable state: the cached `currentToken`. -/
structure AuthState where
  currentToken : Option AuthToken
  deriving Repr, DecidableEq

/-- Result of one `getAccessToken` call: the returned access-token string,
the state after the call, and whether a network token exchange happened. -/
structure GetTokenResult where
  returned : String
  state : AuthState
  didExchange : Bool
  deriving Repr, DecidableEq

/-- `getAccessToken` (auth.ts lines 32-51): serve the cached token when it
exists and is not expired, otherwise perform the exchange (whose response
body `resp` is supplied by the environment) and cache the result. -/
def getAccessToken (now : Int) (resp : TokenResponse) (s : AuthState) :
    GetTokenResult :=
  match s.currentToken with
  | some t =>
    if !(isTokenExpired now t) then
      { returned := t.access_token, state := s, didExchange := false }
    else
      let nt := fetchAccessToken now resp
      { returned := nt.access_token
        state := { currentToken := some nt }
        didExchange := true }
  | none =>
    let nt := fetchAccessToken now resp
    { returned := nt.access_token
      state := { currentToken := some nt }
      didExchange := true }

/-! ### Typed API errors and the journal client (`api-client.ts`,
`journal-api.ts`) -/

/-- `ApiClientError` from `api-client.ts`: message plus optional status
code, correlation id and category.  A plain JS `Error` is represented
with `statusCode = none` (and no correlation data). -/
structure ApiClientError where
  message : String
  statusCode : Option Nat
  correlationId : Option String
  category : Option String
  deriving Repr, DecidableEq

/-- `JournalEvent` from `types/api.ts` (known fields; the open index
signature is dropped, no claim touches it). -/
structure JournalEvent where
  type : String
  portalId : Int
  occurredAt : String
  action : String
  objectTypeId : String
  objectId : Int
  deriving Repr, DecidableEq

/-- `JournalData` from `types/api.ts`: the payload downloaded from the
signed URL. -/
structure JournalData where
  offset : String
  journalEvents : List JournalEvent
  publishedAt : String
  deriving Repr, DecidableEq

/-- `JournalEntry` from `types/api.ts`.  The interface declares `url` as
a string, but the client guards `!entry.url` at runtime, so the field is
modelled as possibly absent. -/
structure JournalEntry where
  url : Option String
  expiresAt : String
  currentOffset : String
  deriving Repr, DecidableEq

/-- `JournalEntryWithData`: a `JournalEntry` with its downloaded data. -/
structure JournalEntryWithData extends JournalEntry where
  data : JournalData
  deriving Repr, DecidableEq

/-- What the HTTP layer yields for one `GET .../offset/{o}/next` call:
a parsed entry, an HTTP 204 (which `ApiClient.get` turns into a thrown
`ApiClientError` with status 204, api-client.ts lines 117-119), or some
other error already mapped to an `ApiClientError`. -/
inductive GetEntryResult where
  | ok (entry : JournalEntry)
  | noContent
  | apiErr (e : ApiClientError)
  deriving Repr, DecidableEq

/-- The error `ApiClient.get` throws on an HTTP 204 response. -/
def noContentError : ApiClientError :=
  { message := "No content available", statusCode := some 204
    correlationId := none, category := none }

/-- The error `getNextJournalEntry` signals when already at the latest
offset. -/
def latestOffsetError : ApiClientError :=
  { message := "You are already on the latest offset", statusCode := some 204
    correlationId := none, category := none }

/-- `ApiClient.get` for the journal "next" route: unwrap the response or
propagate the typed error (204 included). -/
def apiGetEntry (r : GetEntryResult) : Except ApiClientError JournalEntry :=
  match r with
  | .ok e => .ok e
  | .noContent => .error noContentError
  | .apiErr e => .error e

/-- The body of `getNextJournalEntry`'s `try` block (journal-api.ts lines
258-273): fetch the entry, treat a missing `url` as "already on the
latest offset" (status 204), otherwise download the payload (the
`download` oracle stands for `downloadJournalData`, whose failures are
plain errors without a status code). -/
def getNextJournalEntryTry (r : GetEntryResult)
    (download : String → Except String JournalData) :
    Except ApiClientError JournalEntryWithData :=
  match apiGetEntry r with
  | .error e => .error e
  | .ok entry =>
    match entry.url with
    | none => .error latestOffsetError
    | some u =>
      match download u with
      | .error msg =>
        .error { message := msg, statusCode := none
                 correlationId := none, category := none }
      | .ok d => .ok { toJournalEntry := entry, data := d }

/-- `getNextJournalEntry` (journal-api.ts lines 256-283): the `try` body
with the `catch` that rethrows any status-204 `ApiClientError` as the
"already on the latest offset" error and everything else unchanged. -/
def getNextJournalEntry (r : GetEntryResult)
    (download : String → Except String JournalData) :
    Except ApiClientError JournalEntryWithData :=
  match getNextJournalEntryTry r download with
  | .ok e => .ok e
  | .error e =>
    if e.statusCode = some 204 then .error latestOffsetError else .error e

/-! ### HTTP gateway response interceptor (`api-client.ts` lines 63-107) -/

/-- The `data` of an error response body (`ApiError` from
`types/config.ts`), as read by `createApiError`. -/
structure ApiErrorBody where
  message : Option String
  correlationId : Option String
  category : Option String
  deriving Repr, DecidableEq

/-- An axios rejection: transport message, optional HTTP status, optional
parsed error body. -/
structure AxiosFailure where
  message : String
  status : Option Nat
  data : Option ApiErrorBody
  deriving Repr, DecidableEq

/-- `createApiError` (api-client.ts lines 91-107). -/
def createApiError (e : AxiosFailure) : ApiClientError :=
  match e.data with
  | some d =>
    { message := "API Error: " ++ d.message.getD "Unknown error"
      statusCode := e.status
      correlationId := d.correlationId
      category := d.category }
  | none =>
    { message := "HTTP Error: " ++ e.message, statusCode := e.status
      correlationId := none, category := none }

/-- Outcome of one attempt of a request against the axios instance. -/
inductive AttemptOutcome (α : Type) where
  | success (v : α)
  | failure (e : AxiosFailure)
  deriving Repr, DecidableEq

/-- The response interceptor's behaviour on a request (api-client.ts
lines 64-85), driven by the environment: `attempts` lists the outcome the
server gives each successive issue of the request, `refreshOk k` says
whether the (k+1)-th `refreshToken` call succeeds, and `n` counts the
refreshes performed so far.  On a 401 the interceptor refreshes and
re-issues the request through the same axios instance — so the retried
request passes through this very interceptor again.  Returns the final
result and the total number of refreshes performed. -/
def interceptedAttempts {α : Type} (refreshOk : Nat → Bool) :
    List (AttemptOutcome α) → Nat → Except ApiClientError α × Nat
  | [], n =>
    (.error { message := "request schedule exhausted", statusCode := none
              correlationId := none, category := none }, n)
  | a :: rest, n =>
    match a with
    | .success v => (.ok v, n)
    | .failure e =>
      if e.status = some 401 then
        if refreshOk n then interceptedAttempts refreshOk rest (n + 1)
        else (.error (createApiError e), n + 1)
      else (.error (createApiError e), n)

/-- A request sent through the gateway: run the interceptor chain with no
refreshes performed yet. -/
def sendRequest {α : Type} (attempts : List (AttemptOutcome α))
    (refreshOk : Nat → Bool) : Except ApiClientError α × Nat :=
  interceptedAttempts refreshOk attempts 0

/-! ### Subscriptions client (`subscriptions-api.ts`) -/

/-- `Subscription` from `types/api.ts`. -/
structure Subscription where
  id : Int
  appId : Int
  subscriptionType : String
  objectTypeId : String
  portalId : Int
  actions : List String
  properties : Option (List String)
  objectIds : Option (List Int)
  associatedObjectTypeIds : Option (List String)
  createdBy : Int
  createdAt : String
  updatedAt : String
  deletedAt : Option String
  deriving Repr, DecidableEq

/-- Fixture helper: a subscription with the fields the deletion logic
reads (`id`, `portalId`) set and the rest defaulted. -/
def mkSub (id portalId : Int) : Subscription :=
  { id := id, appId := 1, subscriptionType := "OBJECT", objectTypeId := "0-1"
    portalId := portalId, actions := ["CREATE"], properties := none
    objectIds := none, associatedObjectTypeIds := none, createdBy := 1
    createdAt := "t", updatedAt := "t", deletedAt := none }

/-- Observable outcome of `deletePortalSubscriptions`: the bulk call
succeeded, or the individual fallback ran (listing each attempted
subscription id with whether its delete succeeded), or the bulk error was
rethrown. -/
inductive DeletePortalResult where
  | bulkOk
  | fallback (outcomes : List (Int × Bool))
  | error (e : ApiClientError)
  deriving Repr, DecidableEq

/-- `deletePortalSubscriptionsIndividually` (subscriptions-api.ts lines
1510-1533): list all subscriptions (`subs`), filter to the portal, issue
one delete per match — recording each outcome via the `deleteOk` oracle —
and continue past failures (the per-item `catch` only logs). -/
def deletePortalSubscriptionsIndividually (subs : List Subscription)
    (portalId : Int) (deleteOk : Int → Bool) : List (Int × Bool) :=
  (subs.filter (fun sub => sub.portalId == portalId)).map
    (fun sub => (sub.id, deleteOk sub.id))

/-- `deletePortalSubscriptions` (subscriptions-api.ts lines 1493-1505):
try the bulk route; on an error with `statusCode === 500` run the
individual fallback, otherwise rethrow. -/
def deletePortalSubscriptions (portalId : Int)
    (bulk : Except ApiClientError Unit) (subs : List Subscription)
    (deleteOk : Int → Bool) : DeletePortalResult :=
  match bulk with
  | .ok _ => .bulkOk
  | .error e =>
    if e.statusCode = some 500 then
      .fallback (deletePortalSubscriptionsIndividually subs portalId deleteOk)
    else .error e

/-! ### The journal cursor loop (`journal-api.ts` lines 292-395)

`streamJournalEntries` is a single-threaded polling loop over the mutable
variables `lastOffset`, `requestCount`, `lastMinuteTimestamp` and
`isRunning`.  One iteration of the `while` body becomes the step function
`pollStep`; the environment supplies the clock reading `now` for that
iteration (the two `Date.now()` reads inside one synchronous iteration
are the same instant) and the HTTP outcome of the "next entry" request,
and the observable actions (network call, `onNewEntry`/`onError`/
`onStatusUpdate` invocations, sleeps) are recorded as a `StreamEvent`
list.  Callbacks are assumed not to throw, so the outer `catch` of the
iteration body (which sleeps `POLL_INTERVAL_MS * 2`) is never entered:
every failure of the "next entry" call is consumed by the inner
`try/catch` around it. -/

/-- `MAX_REQUESTS_PER_MINUTE` (journal-api.ts line 304). -/
def MAX_REQUESTS_PER_MINUTE : Nat := 30

/-- `POLL_INTERVAL_MS` (journal-api.ts line 305). -/
def POLL_INTERVAL_MS : Int := 2000

/-- The loop's mutable variables. -/
structure StreamState where
  isRunning : Bool
  lastOffset : Option String
  requestCount : Nat
  lastMinuteTimestamp : Int
  deriving Repr, DecidableEq

/-- Observable actions of one loop iteration.  `requested` is the "next
entry" API call; `newEntry e` is an `onNewEntry(e)` invocation;
`errorReported e` is an `onError` invocation carrying the underlying
failure (the code wraps it in a fresh `Error` with a prefix message);
`statusUpdate` is an `onStatusUpdate` invocation; `slept ms` is an
awaited `setTimeout` of `ms` milliseconds. -/
inductive StreamEvent where
  | requested
  | newEntry (e : JournalEntryWithData)
  | errorReported (e : ApiClientError)
  | statusUpdate
  | slept (ms : Int)
  deriving Repr, DecidableEq

/-- `resetRateLimit` (journal-api.ts lines 307-313). -/
def resetRateLimit (now : Int) (s : StreamState) : StreamState :=
  if now - s.lastMinuteTimestamp ≥ 60000 then
    { s with requestCount := 0, lastMinuteTimestamp := now }
  else s

/-- `checkRateLimit` (journal-api.ts lines 315-318): reset if the window
rolled over, then test the counter against the ceiling. -/
def checkRateLimit (now : Int) (s : StreamState) : StreamState × Bool :=
  let s' := resetRateLimit now s
  (s', decide (s'.requestCount < MAX_REQUESTS_PER_MINUTE))

/-- One iteration of the `while (isRunning)` body (journal-api.ts lines
337-380): rate-limit gate (with `continue` after sleeping out the
window), then the "next entry" request guarded by `if (lastOffset)`,
with a new distinct offset advancing the cursor and firing `onNewEntry`,
a status-204 error silently tolerated, any other error reported through
`onError`, and the fixed poll-interval sleep closing the iteration. -/
def pollStep (now : Int) (r : GetEntryResult)
    (download : String → Except String JournalData) (s : StreamState) :
    StreamState × List StreamEvent :=
  let (s₁, allowed) := checkRateLimit now s
  if !allowed then
    let waitTime := 60000 - (now - s₁.lastMinuteTimestamp)
    (s₁, [.statusUpdate, .slept waitTime])
  else
    match s₁.lastOffset with
    | none => (s₁, [.slept POLL_INTERVAL_MS])
    | some off =>
      match getNextJournalEntry r download with
      | .ok nextEntry =>
        let s₂ := { s₁ with requestCount := s₁.requestCount + 1 }
        if nextEntry.currentOffset ≠ off then
          ({ s₂ with lastOffset := some nextEntry.currentOffset },
           [.requested, .newEntry nextEntry, .slept POLL_INTERVAL_MS])
        else
          (s₂, [.requested, .slept POLL_INTERVAL_MS])
      | .error e =>
        let s₂ := { s₁ with requestCount := s₁.requestCount + 1 }
        if e.statusCode = some 204 then
          (s₂, [.requested, .slept POLL_INTERVAL_MS])
        else
          (s₂, [.requested, .errorReported e, .slept POLL_INTERVAL_MS])

/-- The state `streamJournalEntries` enters polling with (lines 297-334):
running, holding the `currentOffset` of the initial latest entry, with
the initial fetch already counted against the rate budget and the window
anchored at the loop's start time `t0`. -/
def initState (t0 : Int) (initialOffset : String) : StreamState :=
  { isRunning := true, lastOffset := some initialOffset
    requestCount := 1, lastMinuteTimestamp := t0 }

/-- Run the loop over a finite schedule of iterations, each supplying
that iteration's clock reading and HTTP outcome; stop (as the code does
at the top of the `while`) once `isRunning` is false. -/
def runPolling (download : String → Except String JournalData) :
    List (Int × GetEntryResult) → StreamState →
    StreamState × List StreamEvent
  | [], s => (s, [])
  | (now, r) :: rest, s =>
    if s.isRunning then
      let (s', evs) := pollStep now r download s
      let (s'', evs') := runPolling download rest s'
      (s'', evs ++ evs')
    else (s, [])

/-- Is this event an `onNewEntry` invocation? -/
def isNewEntryEvent : StreamEvent → Bool
  | .newEntry _ => true
  | _ => false

/-- Is this event an `onError` invocation? -/
def isErrorEvent : StreamEvent → Bool
  | .errorReported _ => true
  | _ => false

/-- Is this event a "next entry" network request? -/
def isRequestEvent : StreamEvent → Bool
  | .requested => true
  | _ => false

/-- Number of `onNewEntry` invocations in an event trace. -/
def countNewEntries (evs : List StreamEvent) : Nat :=
  (evs.filter isNewEntryEvent).length

/-- Number of `onError` invocations in an event trace. -/
def countErrors (evs : List StreamEvent) : Nat :=
  (evs.filter isErrorEvent).length

/-- Number of "next entry" network requests in an event trace. -/
def countRequests (evs : List StreamEvent) : Nat :=
  (evs.filter isRequestEvent).length

/-- Fixture: a journal entry at offset "A" with a signed URL. -/
def entryAtA : JournalEntry :=
  { url := some "https://signed/a", expiresAt := "e", currentOffset := "A" }

/-- Fixture: a journal entry at offset "B" with a signed URL. -/
def entryAtB : JournalEntry :=
  { url := some "https://signed/b", expiresAt := "e", currentOffset := "B" }

/-- Fixture: a download oracle returning an empty payload for any URL. -/
def dlFix : String → Except String JournalData :=
  fun u => .ok { offset := u, journalEvents := [], publishedAt := "p" }

end WebhooksJournal

namespace WebhooksJournal

/-! ### Theorems: token expiry and cache behaviour -/

/-- C8 (counterexample): the expiry predicate does NOT hold "exactly
when `now ≥ obtained_at + expires_in*1000 - 5*60*1000`" for every token
with a present `obtained_at` timestamp: a token with the present-but-zero
timestamp `obtained_at = 0` and `expires_in = 600` is expired at
`now = 100000` — the falsy-zero guard fires — although the formula says
it is not (`100000 < 0 + 600*1000 - 5*60*1000`). -/
theorem isTokenExpired_zero_timestamp :
    isTokenExpired 100000 ⟨"tok", "bearer", 600, some 0⟩ = true
    ∧ ¬((100000 : Int) ≥ 0 + 600 * 1000 - 5 * 60 * 1000) := by
  decide

/-- C8 (amended): for a token carrying a present and NONZERO
`obtained_at` timestamp (a zero timestamp is falsy in JS, so the guard
treats it like a missing one and the token is unconditionally expired)
the expiry predicate holds exactly when `now ≥ obtained_at +
expires_in*1000 - 5*60*1000`; with `expires_in = 300` a token obtained
1ms ago (nonzero timestamp) is expired, and 1000ms before that boundary
it is not. -/
theorem isTokenExpired_iff_boundary (token : AuthToken) (now obtainedAt : Int)
    (h : token.obtained_at = some obtainedAt) (hnz : obtainedAt ≠ 0) :
    (isTokenExpired now token = true ↔
      now ≥ obtainedAt + token.expires_in * 1000 - 5 * 60 * 1000)
    ∧ (∀ t : AuthToken, t.expires_in = 300 → t.obtained_at = some (now - 1) →
        now - 1 ≠ 0 → isTokenExpired now t = true)
    ∧ (∀ t : AuthToken, t.expires_in = 300 → t.obtained_at = some (now - 1) →
        now - 1 ≠ 0 → isTokenExpired (now - 1001) t = false) := by
  refine ⟨?_, ?_, ?_⟩
  · simp [isTokenExpired, h, hnz]
  · intro t h1 h2 h3
    simp only [isTokenExpired, h1, h2, if_neg h3]
    simp only [decide_eq_true_eq]
    omega
  · intro t h1 h2 h3
    simp only [isTokenExpired, h1, h2, if_neg h3]
    simp only [decide_eq_false_iff_not]
    omega

/-- Witness for `isTokenExpired_iff_boundary` at a concrete token. -/
theorem isTokenExpired_iff_boundary_witness :
    (isTokenExpired 1000000 ⟨"tok", "bearer", 300, some 999999⟩ = true) := by
  have h := isTokenExpired_iff_boundary ⟨"tok", "bearer", 300, some 999999⟩
    1000000 999999 rfl (by decide)
  exact h.2.1 ⟨"tok", "bearer", 300, some 999999⟩ rfl rfl (by decide)

/-- Helper: whatever branch `getAccessToken` takes, the string it returns
is the `access_token` of the token cached in the post-call state. -/
lemma getAccessToken_returned_eq_cached (now : Int) (r : TokenResponse)
    (s : AuthState) (u : AuthToken)
    (h : (getAccessToken now r s).state.currentToken = some u) :
    (getAccessToken now r s).returned = u.access_token := by
  cases hs : s.currentToken with
  | some t0 =>
    by_cases hexp : isTokenExpired now t0 = true
    · simp [getAccessToken, hs, hexp] at h ⊢
      rw [h]
    · simp [getAccessToken, hs, hexp] at h ⊢
      rw [h]
  | none =>
    simp [getAccessToken, hs] at h ⊢
    rw [h]

/-- C9: if after a first `getAccessToken` call the cached token `t` is
still unexpired at the time of a second call, the second call returns the
same access-token string as the first and performs no exchange; moreover
an exchange happens exactly when no token is cached or the cached one is
expired. -/
theorem getAccessToken_twice_cached (now₁ now₂ : Int) (r₁ r₂ : TokenResponse)
    (s : AuthState) (t : AuthToken)
    (h : (getAccessToken now₁ r₁ s).state.currentToken = some t)
    (hfresh : isTokenExpired now₂ t = false) :
    ((getAccessToken now₂ r₂ (getAccessToken now₁ r₁ s).state).returned =
        (getAccessToken now₁ r₁ s).returned
      ∧ (getAccessToken now₂ r₂ (getAccessToken now₁ r₁ s).state).didExchange
          = false)
    ∧ (∀ (now : Int) (r : TokenResponse) (s' : AuthState),
        (getAccessToken now r s').didExchange = true ↔
          (s'.currentToken = none ∨ ∃ u, s'.currentToken = some u ∧
            isTokenExpired now u = true)) := by
  constructor
  · have hret := getAccessToken_returned_eq_cached now₁ r₁ s t h
    rw [hret]
    generalize (getAccessToken now₁ r₁ s).state = st at h ⊢
    constructor
    · simp [getAccessToken, h, hfresh]
    · simp [getAccessToken, h, hfresh]
  · intro now r s'
    cases hs : s'.currentToken with
    | some t0 =>
      by_cases hexp : isTokenExpired now t0 <;>
        simp [getAccessToken, hs, hexp]
    | none => simp [getAccessToken, hs]

/-- Witness for `getAccessToken_twice_cached`: concrete empty cache, two
calls at times 5 and 1000 with a 3600-second token (the first call is at
a nonzero instant, so the cached `obtained_at = 5` is truthy and the
cached token genuinely unexpired at the second call). -/
theorem getAccessToken_twice_cached_witness :
    (getAccessToken 1000 ⟨"b", "bearer", 3600⟩
        (getAccessToken 5 ⟨"a", "bearer", 3600⟩ ⟨none⟩).state).returned =
      (getAccessToken 5 ⟨"a", "bearer", 3600⟩ ⟨none⟩).returned := by
  have h := getAccessToken_twice_cached 5 1000 ⟨"a", "bearer", 3600⟩
    ⟨"b", "bearer", 3600⟩ ⟨none⟩ ⟨"a", "bearer", 3600, some 5⟩ (by decide)
    (by decide)
  exact h.1.1

/-- C10: a cached token with no `obtained_at` timestamp is always treated
as expired, so the next `getAccessToken` call performs a fresh exchange
and caches the exchanged token instead of serving the cached one. -/
theorem missing_obtainedAt_forces_exchange (now : Int) (r : TokenResponse)
    (s : AuthState) (t : AuthToken) (hc : s.currentToken = some t)
    (h : t.obtained_at = none) :
    isTokenExpired now t = true
    ∧ (getAccessToken now r s).didExchange = true
    ∧ (getAccessToken now r s).state.currentToken =
        some (fetchAccessToken now r) := by
  have hexp : isTokenExpired now t = true := by
    simp [isTokenExpired, h]
  refine ⟨hexp, ?_, ?_⟩ <;> simp [getAccessToken, hc, hexp]

/-- Witness for `missing_obtainedAt_forces_exchange` at a concrete
timestampless cached token. -/
theorem missing_obtainedAt_forces_exchange_witness :
    (getAccessToken 5 ⟨"n", "bearer", 3600⟩
        ⟨some ⟨"old", "bearer", 3600, none⟩⟩).didExchange = true := by
  have h := missing_obtainedAt_forces_exchange 5 ⟨"n", "bearer", 3600⟩
    ⟨some ⟨"old", "bearer", 3600, none⟩⟩ ⟨"old", "bearer", 3600, none⟩ rfl rfl
  exact h.2.1

/-! ### Theorems: journal "next" no-content handling -/

/-- C7: `getNextJournalEntry` yields exactly the same typed error — the
"already on the latest offset" error with `statusCode = 204` — whether
the response carried no `url` field or the server answered with an
explicit HTTP 204; in particular neither case returns an entry or a
generic error. -/
theorem missing_url_equals_204 (entry : JournalEntry)
    (d₁ d₂ : String → Except String JournalData) (h : entry.url = none) :
    getNextJournalEntry (.ok entry) d₁ = .error latestOffsetError
    ∧ getNextJournalEntry .noContent d₂ = .error latestOffsetError
    ∧ getNextJournalEntry (.ok entry) d₁ = getNextJournalEntry .noContent d₂
    ∧ latestOffsetError.statusCode = some 204 := by
  have h1 : getNextJournalEntry (.ok entry) d₁ = .error latestOffsetError := by
    simp [getNextJournalEntry, getNextJournalEntryTry, apiGetEntry, h,
      latestOffsetError]
  have h2 : getNextJournalEntry .noContent d₂ = .error latestOffsetError := by
    simp [getNextJournalEntry, getNextJournalEntryTry, apiGetEntry,
      noContentError, latestOffsetError]
  exact ⟨h1, h2, h1.trans h2.symm, rfl⟩

/-- Witness for `missing_url_equals_204` at a concrete url-less entry. -/
theorem missing_url_equals_204_witness :
    getNextJournalEntry (.ok ⟨none, "2025-01-01", "off-a"⟩)
      (fun _ => .error "unused") = .error latestOffsetError := by
  have h := missing_url_equals_204 ⟨none, "2025-01-01", "off-a"⟩
    (fun _ => .error "unused") (fun _ => .error "unused") rfl
  exact h.1

/-! ### Theorems: gateway 401 handling -/

/-- C3 (failing-input evaluation): with a request whose first two issues
both return 401 and whose third returns success, and with every token
refresh succeeding, the gateway performs TWO refreshes and returns the
success — the 401-handling interceptor is re-entered by its own retry
(there is no retried-already flag), so the second 401 triggers a second
refresh-and-retry instead of being surfaced as a typed API error after
exactly one. -/
theorem second_401_refreshes_again :
    sendRequest
      [AttemptOutcome.failure ⟨"Unauthorized", some 401, none⟩,
       AttemptOutcome.failure ⟨"Unauthorized", some 401, none⟩,
       AttemptOutcome.success (7 : Nat)]
      (fun _ => true) = (.ok 7, 2) := by
  rfl

/-! ### Theorems: bulk portal deletion fallback -/

/-- C6 (counterexample): a bulk delete failing with 502 — a server-side
5xx status — does NOT trigger the individual-deletion fallback: the
error is rethrown, and no per-subscription delete is attempted, because
the code tests `statusCode === 500` exactly. -/
theorem bulk_502_does_not_fallback :
    deletePortalSubscriptions 1
        (.error { message := "Bad gateway", statusCode := some 502
                  correlationId := none, category := none })
        [mkSub 10 1, mkSub 11 1] (fun _ => true) =
      .error { message := "Bad gateway", statusCode := some 502
               correlationId := none, category := none }
    ∧ (500 ≤ 502 ∧ 502 < 600)
    ∧ ∀ outcomes, deletePortalSubscriptions 1
        (.error { message := "Bad gateway", statusCode := some 502
                  correlationId := none, category := none })
        [mkSub 10 1, mkSub 11 1] (fun _ => true) ≠ .fallback outcomes := by
  refine ⟨rfl, ⟨by norm_num, by norm_num⟩, ?_⟩
  intro outcomes
  simp [deletePortalSubscriptions]

/-- C6 (amended): the fallback runs if and only if the bulk call fails
with status exactly 500; in that case it issues exactly one delete per
subscription whose `portalId` matches (one outcome per match, in order,
regardless of individual failures), a non-500 bulk error is rethrown,
and a successful bulk call performs no individual deletes. -/
theorem deletePortal_fallback_iff_500 (pid : Int) (e : ApiClientError)
    (subs : List Subscription) (deleteOk : Int → Bool)
    (h500 : e.statusCode = some 500) :
    deletePortalSubscriptions pid (.error e) subs deleteOk =
      .fallback ((subs.filter (fun sub => sub.portalId == pid)).map
        (fun sub => (sub.id, deleteOk sub.id)))
    ∧ (deletePortalSubscriptionsIndividually subs pid deleteOk).length =
        (subs.filter (fun sub => sub.portalId == pid)).length
    ∧ (∀ e' : ApiClientError, e'.statusCode ≠ some 500 →
        deletePortalSubscriptions pid (.error e') subs deleteOk = .error e')
    ∧ (∀ u : Unit, deletePortalSubscriptions pid (.ok u) subs deleteOk =
        .bulkOk) := by
  refine ⟨?_, ?_, ?_, ?_⟩
  · simp [deletePortalSubscriptions, h500,
      deletePortalSubscriptionsIndividually]
  · simp [deletePortalSubscriptionsIndividually]
  · intro e' he'
    simp [deletePortalSubscriptions, he']
  · intro u
    rfl

/-- Witness for `deletePortal_fallback_iff_500`: a 500 bulk failure over
a mixed-portal fixture with one individual delete failing — the fallback
deletes exactly the two portal-1 subscriptions and records the failure of
subscription 11 while still attempting subscription 13. -/
theorem deletePortal_fallback_iff_500_witness :
    deletePortalSubscriptions 1
        (.error { message := "Internal", statusCode := some 500
                  correlationId := none, category := none })
        [mkSub 10 2, mkSub 11 1, mkSub 12 3, mkSub 13 1]
        (fun id => id != 11) =
      .fallback [(11, false), (13, true)] := by
  have h := deletePortal_fallback_iff_500 1
    { message := "Internal", statusCode := some 500
      correlationId := none, category := none }
    [mkSub 10 2, mkSub 11 1, mkSub 12 3, mkSub 13 1]
    (fun id => id != 11) rfl
  rw [h.1]
  decide

/-! ### Theorems: the journal cursor loop -/

/-- C1: starting from held offset `A`, the response schedule
`[204, 204, entry(B), 204]` with `B ≠ A` produces exactly one
`onNewEntry` invocation — carrying the entry whose offset is `B` —
advances the held offset to `B`, and the 204 responses contribute no
`onNewEntry` and no `onError` invocations (the full event trace is four
requests, one new-entry callback, and the per-iteration sleeps). -/
theorem cursor_loop_scenario (A B : String) (hAB : B ≠ A) :
    (runPolling dlFix
        [(2000, .noContent), (4000, .noContent),
         (6000, .ok ⟨some "https://signed/b", "e", B⟩), (8000, .noContent)]
        (initState 0 A)).2 =
      [.requested, .slept 2000, .requested, .slept 2000,
       .requested,
       .newEntry ⟨⟨some "https://signed/b", "e", B⟩,
         ⟨"https://signed/b", [], "p"⟩⟩,
       .slept 2000, .requested, .slept 2000]
    ∧ countNewEntries (runPolling dlFix
        [(2000, .noContent), (4000, .noContent),
         (6000, .ok ⟨some "https://signed/b", "e", B⟩), (8000, .noContent)]
        (initState 0 A)).2 = 1
    ∧ countErrors (runPolling dlFix
        [(2000, .noContent), (4000, .noContent),
         (6000, .ok ⟨some "https://signed/b", "e", B⟩), (8000, .noContent)]
        (initState 0 A)).2 = 0
    ∧ (runPolling dlFix
        [(2000, .noContent), (4000, .noContent),
         (6000, .ok ⟨some "https://signed/b", "e", B⟩), (8000, .noContent)]
        (initState 0 A)).1.lastOffset = some B := by
  refine ⟨?_, ?_, ?_, ?_⟩ <;>
    simp [runPolling, pollStep, checkRateLimit, resetRateLimit, initState,
      getNextJournalEntry, getNextJournalEntryTry, apiGetEntry,
      noContentError, latestOffsetError, MAX_REQUESTS_PER_MINUTE,
      POLL_INTERVAL_MS, hAB, dlFix, countNewEntries, countErrors,
      isNewEntryEvent, isErrorEvent]

/-- Witness for `cursor_loop_scenario` at offsets "A" and "B". -/
theorem cursor_loop_scenario_witness :
    countNewEntries (runPolling dlFix
        [(2000, .noContent), (4000, .noContent),
         (6000, .ok ⟨some "https://signed/b", "e", "B"⟩),
         (8000, .noContent)]
        (initState 0 "A")).2 = 1
    ∧ (runPolling dlFix
        [(2000, .noContent), (4000, .noContent),
         (6000, .ok ⟨some "https://signed/b", "e", "B"⟩),
         (8000, .noContent)]
        (initState 0 "A")).1.lastOffset = some "B" := by
  have h := cursor_loop_scenario "A" "B" (by decide)
  exact ⟨h.2.1, h.2.2.2⟩

/-- C2 (amended): every loop transition either leaves the held offset
unchanged, or replaces it with the `currentOffset` of the entry the
"next" call returned, which differs from the held value; no other
mutation of the held offset occurs.  (It may, however, revisit an offset
held earlier than the immediately preceding one — see the
counterexample.) -/
theorem pollStep_offset_transition (now : Int) (r : GetEntryResult)
    (d : String → Except String JournalData) (s : StreamState) :
    (pollStep now r d s).1.lastOffset = s.lastOffset
    ∨ ∃ e, getNextJournalEntry r d = Except.ok e
        ∧ s.lastOffset ≠ some e.currentOffset
        ∧ (pollStep now r d s).1.lastOffset = some e.currentOffset := by
  have hreset : (resetRateLimit now s).lastOffset = s.lastOffset := by
    unfold resetRateLimit; split <;> rfl
  by_cases hallow :
      decide ((resetRateLimit now s).requestCount < MAX_REQUESTS_PER_MINUTE)
        = true
  · cases hoff : (resetRateLimit now s).lastOffset with
    | none =>
      left
      simp [pollStep, checkRateLimit, hallow, hoff, ← hreset]
    | some off =>
      cases hnext : getNextJournalEntry r d with
      | error e =>
        left
        by_cases h204 : e.statusCode = some 204 <;>
          simp [pollStep, checkRateLimit, hallow, hoff, hnext, h204, ← hreset]
      | ok en =>
        by_cases hne : en.currentOffset = off
        · left
          simp [pollStep, checkRateLimit, hallow, hoff, hnext, hne, ← hreset]
        · right
          refine ⟨en, rfl, ?_, ?_⟩
          · rw [← hreset, hoff]
            simp [hne]
            intro hcontr
            exact hne hcontr.symm
          · simp [pollStep, checkRateLimit, hallow, hoff, hnext, hne]
  · left
    simp [pollStep, checkRateLimit, hallow, ← hreset]

/-- C2 (counterexample): the loop CAN move its held offset back to a
previously held value.  Starting from held offset "A", the response
schedule `[entry(B), entry(A)]` first advances the offset to "B" and
then — since the code only compares the returned offset against the
current held value, keeping no memory of earlier ones — moves it back to
the previously held "A". -/
theorem cursor_offset_revisits_previous :
    (initState 0 "A").lastOffset = some "A"
    ∧ (pollStep 2000 (.ok entryAtB) dlFix
        (initState 0 "A")).1.lastOffset = some "B"
    ∧ (pollStep 4000 (.ok entryAtA) dlFix
        (pollStep 2000 (.ok entryAtB) dlFix
          (initState 0 "A")).1).1.lastOffset = some "A"
    ∧ ("A" : String) ≠ "B" := by
  decide

/-- C4: the rate ceiling is 30 per 60000ms window and the initial fetch
is counted; when the counter has reached 30 and the window has not yet
elapsed, the iteration issues no network request, sleeps exactly the
remaining window time, and leaves the counter untouched; once the
elapsed time exceeds the window length the counter is reset (the
post-iteration count is at most the 1 request the iteration itself may
issue, and the window re-anchors at the current time). -/
theorem rate_budget_enforced (s : StreamState) (now : Int)
    (r : GetEntryResult) (d : String → Except String JournalData) :
    (MAX_REQUESTS_PER_MINUTE = 30 ∧ ∀ (t0 : Int) (off : String),
        (initState t0 off).requestCount = 1)
    ∧ (s.requestCount ≥ 30 → now - s.lastMinuteTimestamp < 60000 →
        countRequests (pollStep now r d s).2 = 0
        ∧ StreamEvent.slept (60000 - (now - s.lastMinuteTimestamp)) ∈
            (pollStep now r d s).2
        ∧ (pollStep now r d s).1.requestCount = s.requestCount)
    ∧ (60000 < now - s.lastMinuteTimestamp →
        (pollStep now r d s).1.requestCount ≤ 1
        ∧ (pollStep now r d s).1.lastMinuteTimestamp = now) := by
  refine ⟨⟨rfl, fun t0 off => rfl⟩, ?_, ?_⟩
  · intro hfull hwin
    have hnoreset : resetRateLimit now s = s := by
      unfold resetRateLimit
      rw [if_neg (by omega)]
    have hallow : decide (s.requestCount < MAX_REQUESTS_PER_MINUTE)
        = false := by
      simp [MAX_REQUESTS_PER_MINUTE]
      omega
    refine ⟨?_, ?_, ?_⟩ <;>
      simp [pollStep, checkRateLimit, hnoreset, hallow, countRequests,
        isRequestEvent]
  · intro hwin
    have hreset : resetRateLimit now s =
        { s with requestCount := 0, lastMinuteTimestamp := now } := by
      unfold resetRateLimit
      rw [if_pos (by omega)]
    cases hoff : s.lastOffset with
    | none =>
      constructor <;> simp [pollStep, checkRateLimit, hreset, hoff,
        MAX_REQUESTS_PER_MINUTE]
    | some off =>
      cases hnext : getNextJournalEntry r d with
      | error e =>
        by_cases h204 : e.statusCode = some 204 <;>
          constructor <;>
            simp [pollStep, checkRateLimit, hreset, hoff, hnext, h204,
              MAX_REQUESTS_PER_MINUTE]
      | ok en =>
        by_cases hne : en.currentOffset = off <;>
          constructor <;>
            simp [pollStep, checkRateLimit, hreset, hoff, hnext, hne,
              MAX_REQUESTS_PER_MINUTE]

/-- Witness for `rate_budget_enforced`: with the counter at 30 and only
1000ms of the window elapsed, the iteration makes no request and the
59000ms remainder is slept; with 70000ms elapsed the window re-anchors. -/
theorem rate_budget_enforced_witness :
    countRequests (pollStep 1000 .noContent dlFix
        ⟨true, some "A", 30, 0⟩).2 = 0
    ∧ StreamEvent.slept 59000 ∈ (pollStep 1000 .noContent dlFix
        ⟨true, some "A", 30, 0⟩).2
    ∧ (pollStep 70000 .noContent dlFix
        ⟨true, some "A", 30, 0⟩).1.lastMinuteTimestamp = 70000 := by
  refine ⟨?_, ?_, ?_⟩
  · exact ((rate_budget_enforced ⟨true, some "A", 30, 0⟩ 1000 .noContent
      dlFix).2.1 (by decide) (by decide)).1
  · have h := ((rate_budget_enforced ⟨true, some "A", 30, 0⟩ 1000 .noContent
      dlFix).2.1 (by decide) (by decide)).2.1
    simpa using h
  · exact ((rate_budget_enforced ⟨true, some "A", 30, 0⟩ 70000 .noContent
      dlFix).2.2 (by decide)).2

/-- C5 (amended): when the rate gate passes, an offset is held, and the
"next entry" call fails with an error whose status is not 204, the
iteration invokes `onError` with that failure and then sleeps the NORMAL
2000ms poll interval before the next attempt (the full event trace of
the iteration is request, error report, 2000ms sleep). -/
theorem error_reported_normal_sleep (now : Int) (r : GetEntryResult)
    (d : String → Except String JournalData) (s : StreamState)
    (e : ApiClientError) (off : String)
    (hoff : s.lastOffset = some off)
    (hrate : (resetRateLimit now s).requestCount < MAX_REQUESTS_PER_MINUTE)
    (herr : getNextJournalEntry r d = Except.error e)
    (h204 : e.statusCode ≠ some 204) :
    (pollStep now r d s).2 =
      [.requested, .errorReported e, .slept POLL_INTERVAL_MS]
    ∧ POLL_INTERVAL_MS = 2000 := by
  have hreset : (resetRateLimit now s).lastOffset = s.lastOffset := by
    unfold resetRateLimit; split <;> rfl
  have hoff' : (resetRateLimit now s).lastOffset = some off := by
    rw [hreset, hoff]
  refine ⟨?_, rfl⟩
  simp [pollStep, checkRateLimit, hrate, hoff', herr, h204]

/-- Witness for `error_reported_normal_sleep` at a concrete 500-status
failure during the first polling iteration. -/
theorem error_reported_normal_sleep_witness :
    (pollStep 2000 (.apiErr ⟨"boom", some 500, none, none⟩) dlFix
        (initState 0 "A")).2 =
      [.requested, .errorReported ⟨"boom", some 500, none, none⟩,
       .slept POLL_INTERVAL_MS] := by
  exact (error_reported_normal_sleep 2000
    (.apiErr ⟨"boom", some 500, none, none⟩) dlFix (initState 0 "A")
    ⟨"boom", some 500, none, none⟩ "A" rfl (by decide) rfl
    (by decide)).1

/-- C5 (counterexample): a non-204 failure of the "next entry" call is
followed by the NORMAL 2000ms sleep, not a doubled one: the iteration's
trace contains `slept 2000` and does not contain
`slept (POLL_INTERVAL_MS * 2) = slept 4000` (the doubled sleep exists in
the code only in the outer catch, which a failed request never reaches —
its failure is consumed by the inner catch). -/
theorem error_backoff_counterexample :
    (pollStep 2000 (.apiErr ⟨"down", some 503, none, none⟩) dlFix
        (initState 0 "A")).2 =
      [.requested, .errorReported ⟨"down", some 503, none, none⟩,
       .slept 2000]
    ∧ StreamEvent.slept 4000 ∉
        (pollStep 2000 (.apiErr ⟨"down", some 503, none, none⟩) dlFix
          (initState 0 "A")).2
    ∧ POLL_INTERVAL_MS * 2 = 4000 := by
  decide

end WebhooksJournal
